import Mathlib

/-!
Shallow embedding of the session/connection core of the Gate Minecraft proxy
(package `proxy`): the client Play session handler (`handlePluginMessage`,
`handleKeepAlive`, `handleChat`, `handleBackendJoinGame`), the connected
player (`SpoofChatInput`, `canForwardPluginMessage`, `teardown`) and the
single-shot close discipline of `minecraftConn` (`closeKnown`, `closeWith`).

Go atomics and mutex-protected fields are embedded as explicit state passing;
every handler is a pure function of its inputs (packet fields, current state,
and the success/failure outcome of each fallible write, which in Go is an
`error` result).  `sets.String` is embedded as `Finset String`.
-/

set_option maxRecDepth 8000

namespace GateProxy

/-- Modelled from the spec: protocol version numbers of the named Minecraft
releases (the `proto` package is not part of the sources; the spec refers to
versions 1.8, 1.12.2, 1.13 and 1.16 by name, and the code only compares
version numbers).  The values are the standard Minecraft protocol numbers. -/
def Minecraft_1_8 : Nat := 47

/-- Modelled from the spec: protocol number of Minecraft 1.12.2. -/
def Minecraft_1_12_2 : Nat := 340

/-- Modelled from the spec: protocol number of Minecraft 1.13. -/
def Minecraft_1_13 : Nat := 393

/-- Modelled from the spec: protocol number of Minecraft 1.16. -/
def Minecraft_1_16 : Nat := 735

/-- Modelled from the spec: `packet.MaxServerBoundMessageLength` (the
`packet` package is not part of the sources; the spec fixes the limit
at 256 characters). -/
def MaxServerBoundMessageLength : Nat := 256

/-- Modelled from the spec: `forge.LegacyHandshakeChannel`, the legacy Forge
handshake plugin channel (the `forge` package is not part of the sources).
Only its identity matters for the embedding. -/
def LegacyHandshakeChannel : String := "FML|HS"

/-- `packet.ChatMessage`, the chat message position constant. -/
def ChatMessageType : Nat := 0

/-- Embedding of `packet.JoinGame` (the fields read by
`handleBackendJoinGame`).  `DimensionInfo` and `CurrentDimensionData` are
opaque payloads, embedded as `Nat` tags. -/
structure JoinGame where
  dimension : Int
  hashedSeedPart : Int
  difficulty : Nat
  gamemode : Nat
  levelType : Option String
  previousGamemode : Int
  dimensionInfo : Nat
  currentDimensionData : Nat
deriving DecidableEq, Repr

/-- Embedding of `packet.Respawn` (the fields `handleBackendJoinGame`
writes).  `hashedSeedPart` embeds the Go field `PartialHashedSeed`. -/
structure Respawn where
  dimension : Int
  hashedSeedPart : Int
  difficulty : Nat
  gamemode : Nat
  levelType : String
  shouldKeepPlayerData : Bool
  dimensionInfo : Nat
  previousGamemode : Int
  currentDimensionData : Nat
deriving DecidableEq, Repr

/-- The packets the embedded handlers construct or forward. -/
inductive Packet where
  | joinGame (j : JoinGame)
  | respawn (r : Respawn)
  | resetTitle (protocol : Nat)
  | register (protocol : Nat) (channels : List String)
  | chat (message : String) (chatType : Nat)
  | keepAlive (randomId : Int)
deriving DecidableEq, Repr

/-- Go `strings.HasPrefix(s, pre)`, embedded structurally over the
character list so it evaluates inside the kernel. -/
def hasPrefix (s pre : String) : Bool :=
  pre.data.isPrefixOf s.data

/-- `sets.String.Insert(channels...)`: insert every channel into the set. -/
def insertAll (channels : List String) (s : Finset String) : Finset String :=
  channels.foldl (fun acc ch => insert ch acc) s

/-- `sets.String.Delete(channels...)`: remove every channel from the set. -/
def deleteAll (channels : List String) (s : Finset String) : Finset String :=
  channels.foldl (fun acc ch => acc.erase ch) s

/-!
## `connectedPlayer.canForwardPluginMessage`

Source: part_000 lines 422-437.  `plugin.LegacyRegister`/`plugin.LegacyUnregister`
are predicates on the message defined outside the sources; they enter the
embedding as the booleans `legacyReg`/`legacyUnreg`.
-/

/-- Embedding of `connectedPlayer.canForwardPluginMessage`: decides whether a
plugin message arriving from the backend may be forwarded to the client.
The Go local `minecraftOrFmlMessage` (the first disjunct) is inlined. -/
def canForwardPluginMessage (protocol : Nat) (channel : String)
    (legacyReg legacyUnreg : Bool) (known : Finset String) : Bool :=
  (if protocol ≤ Minecraft_1_12_2 then
      hasPrefix channel "MC|" || hasPrefix channel LegacyHandshakeChannel ||
        legacyReg || legacyUnreg
    else
      hasPrefix channel "minecraft:") || decide (channel ∈ known)

/-!
## `connectedPlayer.teardown`

Source: part_000 lines 305-335.
-/

/-- The `LoginStatus` values reported to `DisconnectEvent`. -/
inductive LoginStatus where
  | conflictingLogin
  | successfulLogin
  | canceledByProxy
  | canceledByUser
deriving DecidableEq, Repr

/-- Observable effects of `connectedPlayer.teardown`. -/
structure TeardownResult where
  disconnectedInFlight : Bool
  disconnectedCurrent : Bool
  eventFired : Bool
  status : LoginStatus
deriving DecidableEq, Repr

/-- Embedding of `connectedPlayer.teardown`: disconnect the in-flight and
current backend connections (when present), then fire a `DisconnectEvent`
whose status is driven by the registry unregistration result, the
duplicate-connection flag and the known-disconnect flag. -/
def teardown (inFlightPresent currentPresent unregisterOk dupFlag
    knownDisconnect : Bool) : TeardownResult :=
  { disconnectedInFlight := inFlightPresent
    disconnectedCurrent := currentPresent
    eventFired := true
    status :=
      if unregisterOk then
        if dupFlag then .conflictingLogin else .successfulLogin
      else
        if knownDisconnect then .canceledByProxy else .canceledByUser }

/-!
## `clientPlaySessionHandler.handlePluginMessage`

Source: part_001 lines 125-202.  The predicates `plugin.Register`,
`plugin.Unregister`, `plugin.McBrand` on the packet, the parsed channel list
`plugin.Channels(packet)`, the Forge phase tests and the channel registrar
lookup are defined outside the sources; they enter the embedding as the
fields of `PmFlags` and the `channels` argument.  A `WritePacket` call on the
backend is recorded as one backend write; its Go `error` result is the
boolean `writeOk` (`writeOk = true` iff `WritePacket(...) == nil`).
-/

/-- Inputs of `handlePluginMessage` that come from the packet classification
and the surrounding session state. -/
structure PmFlags where
  statePlay : Bool
  isRegister : Bool
  isUnregister : Bool
  isBrand : Bool
  writeOk : Bool
  inTransition : Bool
  inFlightPresent : Bool
  playerPhaseHandled : Bool
  playerPhaseComplete : Bool
  serverPhaseComplete : Bool
  registrarHas : Bool
  eventAllowed : Bool
deriving DecidableEq, Repr

/-- Observable effects of one `handlePluginMessage` call. -/
structure PmEffects where
  known : Finset String
  writesToBackend : Nat
  forwardedToInFlight : Bool
  handledByPlayerPhase : Bool
  eventFired : Bool
  queued : Bool
deriving DecidableEq

/-- Embedding of `clientPlaySessionHandler.handlePluginMessage`.
`serverConnPresent` is `connectedServer() != nil` and `backendConnPresent`
is `serverConn.conn() != nil`. -/
def handlePluginMessage (serverConnPresent backendConnPresent : Bool)
    (f : PmFlags) (channels : List String) (known : Finset String) :
    PmEffects :=
  if ¬(serverConnPresent ∧ backendConnPresent) then
    ⟨known, 0, false, false, false, false⟩
  else if ¬ f.statePlay then
    ⟨known, 0, false, false, false, false⟩
  else if f.isRegister then
    ⟨if ¬ f.writeOk then insertAll channels known else known,
      1, false, false, false, false⟩
  else if f.isUnregister then
    ⟨if ¬ f.writeOk then deleteAll channels known else known,
      1, false, false, false, false⟩
  else if f.isBrand then
    ⟨known, 1, false, false, false, false⟩
  else if f.inTransition then
    ⟨known, 0, f.inFlightPresent, false, false, false⟩
  else if f.playerPhaseHandled then
    ⟨known, 0, false, true, false, false⟩
  else if f.playerPhaseComplete ∧ f.serverPhaseComplete then
    if ¬ f.registrarHas then
      ⟨known, 1, false, false, false, false⟩
    else
      ⟨known, if f.eventAllowed then 1 else 0, false, false, true, false⟩
  else
    ⟨known, 0, false, false, false, true⟩

/-!
## `clientPlaySessionHandler.handleChat`

Source: part_001 lines 311-370.  The command registry lookup and the event
outcomes enter as booleans; the message itself is carried through so the
forwarded packet can be inspected.
-/

/-- Observable effects of one `handleChat` call. -/
structure ChatEffects where
  commandEventFired : Bool
  chatEventFired : Bool
  commandInvoked : Bool
  forwarded : Option Packet
deriving DecidableEq, Repr

/-- Embedding of `clientPlaySessionHandler.handleChat`.  `eventAllowed` is
the `Allowed()` outcome of the fired event (command or chat), `active` is
`player.Active()`, `registryHas` is `proxy.command.Has(cmd)`. -/
def handleChat (serverConnPresent backendConnPresent : Bool)
    (message : String) (eventAllowed active registryHas : Bool) :
    ChatEffects :=
  if ¬ serverConnPresent then ⟨false, false, false, none⟩
  else if ¬ backendConnPresent then ⟨false, false, false, none⟩
  else if hasPrefix message "/" then
    if ¬ eventAllowed ∨ ¬ active then ⟨true, false, false, none⟩
    else if registryHas then ⟨true, false, true, none⟩
    else ⟨true, false, false, some (.chat message ChatMessageType)⟩
  else
    if ¬ eventAllowed ∨ ¬ active then ⟨false, true, false, none⟩
    else ⟨false, true, false, some (.chat message ChatMessageType)⟩

/-!
## `connectedPlayer.SpoofChatInput`

Source: part_000 lines 159-172.  Go `len(input)` counts UTF-8 bytes, hence
`String.utf8ByteSize`.
-/

/-- The errors `SpoofChatInput` can return. -/
inductive SpoofErr where
  | tooLongChatMessage
  | noBackendConnection
  | writeFailed
deriving DecidableEq, Repr

/-- Result of `SpoofChatInput`: the `WritePacket` calls it made and the
returned error, if any. -/
structure SpoofResult where
  written : List Packet
  error : Option SpoofErr
deriving DecidableEq, Repr

/-- Embedding of `connectedPlayer.SpoofChatInput`. -/
def SpoofChatInput (input : String) (serverConnPresent backendConnPresent
    writeOk : Bool) : SpoofResult :=
  if input.utf8ByteSize > MaxServerBoundMessageLength then
    ⟨[], some .tooLongChatMessage⟩
  else if ¬(serverConnPresent ∧ backendConnPresent) then
    ⟨[], some .noBackendConnection⟩
  else
    ⟨[.chat input ChatMessageType], if writeOk then none else some .writeFailed⟩

/-!
## `clientPlaySessionHandler.handleKeepAlive`

Source: part_001 lines 111-123.  Durations and instants are nanosecond
counts (`Int`), as in Go.  `st.lastPingSent` holds the stored millisecond
value; the code reads it as `time.Unix(0, lastPingSent*int64(time.Millisecond))`
and, after a successful forward, stores
`int64(time.Duration(time.Now().Nanosecond()) / time.Millisecond)` —
note `Nanosecond()` is the sub-second offset of the clock reading.
-/

/-- The per-`serverConnection`/player state `handleKeepAlive` touches. -/
structure KeepAliveState where
  ping : Int
  lastPingId : Int
  lastPingSent : Int
deriving DecidableEq, Repr

/-- Embedding of `clientPlaySessionHandler.handleKeepAlive`.  Returns the
updated state and whether the packet was forwarded to the backend
(`WritePacket` was called).  `nowUnixNano` is the wall clock in nanoseconds
since the Unix epoch (nonnegative for any real clock reading). -/
def handleKeepAlive (serverConnPresent backendConnPresent : Bool)
    (randomId : Int) (nowUnixNano : Int) (writeOk : Bool)
    (st : KeepAliveState) : KeepAliveState × Bool :=
  if serverConnPresent ∧ randomId = st.lastPingId then
    if backendConnPresent then
      let st1 : KeepAliveState :=
        { st with ping := nowUnixNano - st.lastPingSent * 1000000 }
      if writeOk then
        ({ st1 with lastPingSent := (nowUnixNano % 1000000000) / 1000000 },
          true)
      else (st1, true)
    else (st, false)
  else (st, false)

/-!
## Buffered connections (`minecraftConn.BufferPacket` / `flush`)

Source: connection.go lines 243-251 (`BufferPacket`) and 186-198 (`flush`).
A connection records the packets successfully encoded into its write buffer.
Whether the n-th `BufferPacket` call (and the final `flush`) succeeds is an
environment choice, embedded as the oracle `okFun` (indexed by the number of
buffer calls made so far) and `flushOk`; a failing call returns a non-nil Go
error.  `BufferPacket` refuses to run on a closed connection
(`ErrClosedConn`); a write error closes the connection.
-/

/-- A Minecraft connection's write side: buffered packets plus the
success/failure environment for its fallible operations. -/
structure Conn where
  buffered : List Packet
  okFun : Nat → Bool
  count : Nat
  flushOk : Bool
  closed : Bool

/-- A fresh (open, empty) connection with the given operation outcomes. -/
def Conn.fresh (ok : Nat → Bool) (fl : Bool) : Conn :=
  ⟨[], ok, 0, fl, false⟩

/-- Embedding of `minecraftConn.BufferPacket`: `none` is a non-nil error. -/
def bufferPacket (p : Packet) (c : Conn) : Option Conn :=
  if c.closed then none
  else if c.okFun c.count then
    some { c with buffered := c.buffered ++ [p], count := c.count + 1 }
  else none

/-- Buffer a list of packets in order, stopping at the first error (each
call site of `BufferPacket` in `handleBackendJoinGame` checks the error and
returns early). -/
def bufferAll : List Packet → Conn → Option Conn
  | [], c => some c
  | p :: ps, c =>
    match bufferPacket p c with
    | none => none
    | some c2 => bufferAll ps c2

/-- Embedding of `minecraftConn.flush`: `none` is a non-nil error (either
from `SetWriteDeadline` or from the encoder-synchronised buffer flush). -/
def flushConn (c : Conn) : Option Conn :=
  if c.flushOk then some c else none

/-!
## `clientPlaySessionHandler.handleBackendJoinGame`

Source: part_001 lines 206-303.  `connected` is the outcome of
`destination.ensureConnected()`; `spawned` is the value of the handler's
`spawned` atomic before the call (`spawned.CAS(false, true)` succeeds iff it
was `false`, and afterwards the flag is `true` either way).
`plugin.ConstructChannelsPacket` and `packet.NewResetTitle` are outside the
sources and enter as the opaque constructors `Packet.register` and
`Packet.resetTitle`.  `completeJoin` (which promotes the destination to the
player's `currentServer`) is recorded as the `completeJoin` flag.
-/

/-- The client-bound packets buffered by the subsequent-switch branch of
`handleBackendJoinGame` (part_001 lines 232-265): the backend's JoinGame,
then the Respawn compensation.  The `Respawn` struct is built once (Go zero
value `Dimension = 0`) and its `Dimension` is mutated between the two
buffer calls, each of which encodes the current contents. -/
def subsequentClientPackets (playerProto : Nat) (jg : JoinGame) :
    List Packet :=
  let respawn : Respawn :=
    { dimension := 0
      hashedSeedPart := jg.hashedSeedPart
      difficulty := jg.difficulty
      gamemode := jg.gamemode
      levelType := match jg.levelType with | some s => s | none => ""
      shouldKeepPlayerData := false
      dimensionInfo := jg.dimensionInfo
      previousGamemode := jg.previousGamemode
      currentDimensionData := jg.currentDimensionData }
  if playerProto < Minecraft_1_16 then
    let respawn1 :=
      if jg.dimension = 0 then { respawn with dimension := -1 } else respawn
    [Packet.joinGame jg, Packet.respawn respawn1,
      Packet.respawn { respawn1 with dimension := jg.dimension }]
  else
    [Packet.joinGame jg, Packet.respawn { respawn with dimension := jg.dimension }]

/-- Result of `handleBackendJoinGame`: the returned `handled` boolean,
whether `completeJoin` ran on the destination, whether `onFirstJoin` ran on
the client-side Forge phase, the `spawned` flag after the call, and both
connections. -/
structure JoinResult where
  handled : Bool
  completeJoin : Bool
  onFirstJoin : Bool
  spawnedAfter : Bool
  player : Conn
  serverMc : Conn

/-- Embedding of `clientPlaySessionHandler.handleBackendJoinGame`. -/
def handleBackendJoinGame (connected spawned : Bool)
    (playerProto serverProto : Nat) (jg : JoinGame)
    (knownChannels : List String) (queued : List Packet)
    (player serverMc : Conn) : JoinResult :=
  if connected then
    match bufferAll (if spawned then subsequentClientPackets playerProto jg
        else [Packet.joinGame jg]) player with
    | none => ⟨false, false, false, true, player, serverMc⟩
    | some player1 =>
      match (if knownChannels = [] then some serverMc
             else bufferPacket (Packet.register serverProto knownChannels)
               serverMc) with
      | none => ⟨false, false, !spawned, true, player1, serverMc⟩
      | some server1 =>
        match bufferAll queued server1 with
        | none => ⟨false, false, !spawned, true, player1, server1⟩
        | some server2 =>
          match (if Minecraft_1_8 ≤ playerProto then
                   bufferPacket (Packet.resetTitle playerProto) player1
                 else some player1) with
          | none => ⟨false, false, !spawned, true, player1, server2⟩
          | some player2 =>
            match flushConn player2 with
            | none => ⟨false, false, !spawned, true, player2, server2⟩
            | some player3 =>
              match flushConn server2 with
              | none => ⟨false, false, !spawned, true, player3, server2⟩
              | some server3 => ⟨true, true, !spawned, true, player3, server3⟩
  else
    ⟨false, false, false, spawned, player, serverMc⟩

/-- Number of `BufferPacket` calls `handleBackendJoinGame` makes on the
client connection when no call fails. -/
def clientBufferCalls (spawned : Bool) (playerProto : Nat) : Nat :=
  (if spawned then (if playerProto < Minecraft_1_16 then 3 else 2) else 1) +
    (if Minecraft_1_8 ≤ playerProto then 1 else 0)

/-- Number of `BufferPacket` calls `handleBackendJoinGame` makes on the
backend connection when no call fails. -/
def serverBufferCalls (knownChannels : List String)
    (queued : List Packet) : Nat :=
  (if knownChannels = [] then 0 else 1) + queued.length

/-!
## `minecraftConn.closeKnown` / `closeWith` / `close`

Source: connection.go lines 272-336.  Sequential embedding: the per-call
effects (knownDisconnect store, packet write, close mark, `disconnected()`
callback) are recorded in an event trace so their order is provable.
`closeOnce`/`closed` are flipped together in the source and are embedded as
the single flag `closedOnce`.
-/

/-- The observable events of the close path, in execution order. -/
inductive CloseEvent where
  | setKnownDisconnect
  | sentPacket (p : Packet)
  | closedMark
  | disconnectedCall
deriving DecidableEq

/-- State of a connection's close discipline. -/
structure CloseState where
  closedOnce : Bool
  knownDisconnect : Bool
  disconnectedCount : Nat
  writeOk : Bool
  events : List CloseEvent
deriving DecidableEq

/-- The close-path entry points of `minecraftConn`. -/
inductive CloseOp where
  | close
  | closeWith (p : Packet)
  | closeKnownOp (markKnown : Bool)
deriving DecidableEq

/-- Result a close-path call returns. -/
inductive CloseRes where
  | ok
  | errClosedConn
  | errWrite
deriving DecidableEq

/-- Embedding of `minecraftConn.closeKnown`: runs once; later calls return
`ErrClosedConn` and change nothing. -/
def closeKnownStep (markKnown : Bool) (s : CloseState) :
    CloseState × CloseRes :=
  if s.closedOnce then (s, .errClosedConn)
  else
    let s1 :=
      if markKnown then
        { s with knownDisconnect := true
                 events := s.events ++ [.setKnownDisconnect] }
      else s
    ({ s1 with closedOnce := true
               disconnectedCount := s1.disconnectedCount + 1
               events := s1.events ++ [.closedMark, .disconnectedCall] },
      .ok)

/-- Embedding of `minecraftConn.WritePacket` as used by `closeWith`: on a
closed connection it returns `ErrClosedConn`; a write error closes the
connection via `closeOnErr` (which calls `close`). -/
def writePacketStep (p : Packet) (s : CloseState) : CloseState × CloseRes :=
  if s.closedOnce then (s, .errClosedConn)
  else if s.writeOk then
    ({ s with events := s.events ++ [.sentPacket p] }, .ok)
  else
    ((closeKnownStep true s).1, .errWrite)

/-- Embedding of `minecraftConn.closeWith`: store `knownDisconnect = true`,
write the packet, then (deferred) `close`, whose result is returned. -/
def closeWithStep (p : Packet) (s : CloseState) : CloseState × CloseRes :=
  if s.closedOnce then (s, .errClosedConn)
  else
    let s1 := { s with knownDisconnect := true
                       events := s.events ++ [.setKnownDisconnect] }
    closeKnownStep true (writePacketStep p s1).1

/-- One call into the close path (`close` is `closeKnown true`). -/
def closeStep : CloseOp → CloseState → CloseState × CloseRes
  | .close, s => closeKnownStep true s
  | .closeWith p, s => closeWithStep p s
  | .closeKnownOp mk, s => closeKnownStep mk s

/-- Run a sequence of close-path calls. -/
def runCloseOps (s : CloseState) : List CloseOp → CloseState
  | [] => s
  | op :: ops => runCloseOps (closeStep op s).1 ops

/-- An open connection that has never been closed. -/
def initCloseState (writeOk : Bool) : CloseState :=
  ⟨false, false, 0, writeOk, []⟩

/-!
## Helper lemmas about buffering
-/

theorem bufferPacket_eq_some {p : Packet} {c c' : Conn}
    (h : bufferPacket p c = some c') :
    c.closed = false ∧ c.okFun c.count = true ∧
      c'.buffered = c.buffered ++ [p] ∧ c'.okFun = c.okFun ∧
      c'.count = c.count + 1 ∧ c'.flushOk = c.flushOk ∧ c'.closed = false := by
  unfold bufferPacket at h
  by_cases hc : c.closed
  · simp [hc] at h
  · by_cases hk : c.okFun c.count
    · rw [if_neg hc, if_pos hk] at h
      injection h with h
      subst h
      have hcf : c.closed = false := by simpa using hc
      exact ⟨hcf, hk, rfl, rfl, rfl, rfl, hcf⟩
    · rw [if_neg hc, if_neg hk] at h
      cases h

theorem bufferPacket_eq_none {p : Packet} {c : Conn} (hc : c.closed = false)
    (h : bufferPacket p c = none) : c.okFun c.count = false := by
  unfold bufferPacket at h
  have hcn : ¬ (c.closed = true) := by simp [hc]
  by_cases hk : c.okFun c.count
  · rw [if_neg hcn, if_pos hk] at h
    cases h
  · simpa using hk

theorem bufferAll_some (ps : List Packet) :
    ∀ (c c' : Conn), bufferAll ps c = some c' →
      c'.okFun = c.okFun ∧ c'.count = c.count + ps.length ∧
        c'.closed = c.closed ∧ c'.flushOk = c.flushOk ∧
        c'.buffered = c.buffered ++ ps := by
  induction ps with
  | nil =>
    intro c c' h
    unfold bufferAll at h
    injection h with h
    subst h
    simp
  | cons p ps ih =>
    intro c c' h
    unfold bufferAll at h
    cases hb : bufferPacket p c with
    | none => rw [hb] at h; cases h
    | some c2 =>
      rw [hb] at h
      obtain ⟨hcl, hk, hbuf, hok, hcnt, hfl, hcl2⟩ := bufferPacket_eq_some hb
      obtain ⟨h1, h2, h3, h4, h5⟩ := ih _ _ h
      refine ⟨h1.trans hok, ?_, ?_, h4.trans hfl, ?_⟩
      · rw [h2, hcnt]
        simp only [List.length_cons]
        omega
      · rw [h3, hcl2, hcl]
      · rw [h5, hbuf]
        simp

theorem bufferAll_isSome (ps : List Packet) :
    ∀ (c : Conn), c.closed = false →
      ((bufferAll ps c).isSome = true ↔
        ∀ i, i < ps.length → c.okFun (c.count + i) = true) := by
  induction ps with
  | nil => intro c _; simp [bufferAll]
  | cons p ps ih =>
    intro c hc
    have hcn : ¬ (c.closed = true) := by simp [hc]
    unfold bufferAll
    by_cases hk : c.okFun c.count
    · have hb : bufferPacket p c =
          some { c with buffered := c.buffered ++ [p], count := c.count + 1 } := by
        unfold bufferPacket
        rw [if_neg hcn, if_pos hk]
      rw [hb]
      show (bufferAll ps _).isSome = true ↔ _
      rw [ih { c with buffered := c.buffered ++ [p], count := c.count + 1 } hc]
      constructor
      · intro h i hi
        cases i with
        | zero => simpa using hk
        | succ n =>
          have h2 := h n (Nat.lt_of_succ_lt_succ hi)
          have he : c.count + (n + 1) = c.count + 1 + n := by omega
          rw [he]
          exact h2
      · intro h i hi
        have h2 := h (i + 1) (Nat.succ_lt_succ hi)
        show c.okFun (c.count + 1 + i) = true
        have he : c.count + 1 + i = c.count + (i + 1) := by omega
        rw [he]
        exact h2
    · have hb : bufferPacket p c = none := by
        unfold bufferPacket
        rw [if_neg hcn, if_neg hk]
      rw [hb]
      show (none : Option Conn).isSome = true ↔ _
      simp only [Option.isSome_none, Bool.false_eq_true, false_iff]
      intro h
      have := h 0 (by simp)
      simp only [Nat.add_zero] at this
      simp [this] at hk

theorem flushConn_eq_some {c c' : Conn} (h : flushConn c = some c') :
    c.flushOk = true ∧ c' = c := by
  unfold flushConn at h
  by_cases hf : c.flushOk
  · simp only [hf, if_true] at h
    exact ⟨hf, (Option.some.inj h).symm⟩
  · simp [hf] at h

theorem flushConn_eq_none {c : Conn} (h : flushConn c = none) :
    c.flushOk = false := by
  unfold flushConn at h
  by_cases hf : c.flushOk
  · simp [hf] at h
  · simpa using hf

/-!
## Helper lemmas about the close path
-/

theorem closeKnownStep_closed {s : CloseState} (h : s.closedOnce = true)
    (mk : Bool) : closeKnownStep mk s = (s, .errClosedConn) := by
  unfold closeKnownStep
  rw [if_pos h]

theorem closeStep_closed {s : CloseState} (h : s.closedOnce = true)
    (op : CloseOp) : closeStep op s = (s, .errClosedConn) := by
  cases op with
  | close => exact closeKnownStep_closed h true
  | closeKnownOp mk => exact closeKnownStep_closed h mk
  | closeWith p =>
    show closeWithStep p s = _
    unfold closeWithStep
    rw [if_pos h]

theorem closeKnownStep_open {s : CloseState} (h : s.closedOnce = false)
    (mk : Bool) :
    (closeKnownStep mk s).1.closedOnce = true ∧
      (closeKnownStep mk s).1.disconnectedCount = s.disconnectedCount + 1 := by
  unfold closeKnownStep
  rw [if_neg (by simp [h])]
  cases mk <;> simp

theorem closeStep_open {s : CloseState} (h : s.closedOnce = false)
    (op : CloseOp) :
    (closeStep op s).1.closedOnce = true ∧
      (closeStep op s).1.disconnectedCount = s.disconnectedCount + 1 := by
  cases op with
  | close => exact closeKnownStep_open h true
  | closeKnownOp mk => exact closeKnownStep_open h mk
  | closeWith p =>
    by_cases hw : s.writeOk <;>
      simp [closeStep, closeWithStep, writePacketStep, closeKnownStep, h, hw]

theorem runCloseOps_closed {s : CloseState} (h : s.closedOnce = true) :
    ∀ ops, runCloseOps s ops = s := by
  intro ops
  induction ops with
  | nil => rfl
  | cons op ops ih =>
    show runCloseOps (closeStep op s).1 ops = s
    rw [closeStep_closed h op]
    exact ih

theorem runCloseOps_append (a b : List CloseOp) :
    ∀ s, runCloseOps s (a ++ b) = runCloseOps (runCloseOps s a) b := by
  induction a with
  | nil => intro s; rfl
  | cons op a ih =>
    intro s
    show runCloseOps (closeStep op s).1 (a ++ b) = _
    rw [ih]
    rfl

theorem runCloseOps_init (w : Bool) (ops : List CloseOp) (hne : ops ≠ []) :
    (runCloseOps (initCloseState w) ops).closedOnce = true ∧
      (runCloseOps (initCloseState w) ops).disconnectedCount = 1 := by
  cases ops with
  | nil => exact absurd rfl hne
  | cons op ops =>
    have h0 : (initCloseState w).closedOnce = false := rfl
    obtain ⟨h1, h2⟩ := closeStep_open h0 op
    have hr : runCloseOps (initCloseState w) (op :: ops) =
        (closeStep op (initCloseState w)).1 := by
      show runCloseOps (closeStep op (initCloseState w)).1 ops = _
      exact runCloseOps_closed h1 ops
    rw [hr]
    exact ⟨h1, by rw [h2]; rfl⟩

/-!
## Helper lemmas about the join ceremony
-/

theorem subsequentClientPackets_length (playerProto : Nat) (jg : JoinGame) :
    (subsequentClientPackets playerProto jg).length =
      if playerProto < Minecraft_1_16 then 3 else 2 := by
  by_cases h : playerProto < Minecraft_1_16 <;>
    simp [subsequentClientPackets, h]

theorem joinGame_onFirstJoin_eq (connected spawned : Bool)
    (playerProto serverProto : Nat) (jg : JoinGame) (kn : List String)
    (q : List Packet) (player serverMc : Conn) :
    (handleBackendJoinGame connected spawned playerProto serverProto jg kn q
        player serverMc).onFirstJoin =
      (connected && !spawned &&
        (bufferAll (if spawned then subsequentClientPackets playerProto jg
          else [Packet.joinGame jg]) player).isSome) := by
  unfold handleBackendJoinGame
  repeat' split <;> (try simp_all)

theorem joinGame_spawnedAfter_true (spawned : Bool)
    (playerProto serverProto : Nat) (jg : JoinGame) (kn : List String)
    (q : List Packet) (player serverMc : Conn) :
    (handleBackendJoinGame true spawned playerProto serverProto jg kn q
        player serverMc).spawnedAfter = true := by
  unfold handleBackendJoinGame
  repeat' split <;> (try simp_all)

theorem joinGame_handled_eq_completeJoin (connected spawned : Bool)
    (playerProto serverProto : Nat) (jg : JoinGame) (kn : List String)
    (q : List Packet) (player serverMc : Conn) :
    (handleBackendJoinGame connected spawned playerProto serverProto jg kn q
        player serverMc).handled =
      (handleBackendJoinGame connected spawned playerProto serverProto jg
        kn q player serverMc).completeJoin := by
  unfold handleBackendJoinGame
  repeat' split <;> try rfl

/-!
## Claim theorems
-/

/-- Claim C1 (code-bug evaluation): in `handlePluginMessage`, the
known-channel set update for REGISTER/UNREGISTER messages runs only when the
backend `WritePacket` FAILS (the source tests `WritePacket(packet) != nil`):
with a successful write the channel set is left unchanged, and with a failed
write the channels are inserted (resp. deleted) — the inverse of the claimed
(and spec-intended) behaviour.  Evaluated on a REGISTER of channel
`gate:test` against an empty set and an UNREGISTER against a set holding it. -/
theorem register_updates_channels_only_on_write_failure :
    (handlePluginMessage true true
        ⟨true, true, false, false, true, false, false, false, false, false,
          false, false⟩ ["gate:test"] ∅).known = ∅ ∧
    (handlePluginMessage true true
        ⟨true, true, false, false, false, false, false, false, false, false,
          false, false⟩ ["gate:test"] ∅).known = insert "gate:test" ∅ ∧
    (handlePluginMessage true true
        ⟨true, false, true, false, true, false, false, false, false, false,
          false, false⟩ ["gate:test"] (insert "gate:test" ∅)).known =
      insert "gate:test" ∅ ∧
    (handlePluginMessage true true
        ⟨true, false, true, false, false, false, false, false, false, false,
          false, false⟩ ["gate:test"] (insert "gate:test" ∅)).known = ∅ := by
  refine ⟨?_, ?_, ?_, ?_⟩ <;> decide

/-- A sample JoinGame packet with dimension 0 (overworld). -/
def jgSample0 : JoinGame := ⟨0, 77, 2, 1, some "flat", -1, 3, 4⟩

/-- A sample JoinGame packet with dimension 2 (the end). -/
def jgSample2 : JoinGame := ⟨2, 77, 2, 1, none, -1, 3, 4⟩

/-- The Respawn packet the spec describes for the switch ceremony: it
mirrors the JoinGame's difficulty, gamemode, partial hashed seed, level
type (empty string if absent), previous gamemode, dimension info and
current dimension data, carries `ShouldKeepPlayerData = false`, and has the
given dimension.  (Stated from the spec's words, for comparison with the
source-derived `subsequentClientPackets`.) -/
def mirrorRespawn (jg : JoinGame) (dim : Int) : Respawn :=
  { dimension := dim
    hashedSeedPart := jg.hashedSeedPart
    difficulty := jg.difficulty
    gamemode := jg.gamemode
    levelType := match jg.levelType with | some s => s | none => ""
    shouldKeepPlayerData := false
    dimensionInfo := jg.dimensionInfo
    previousGamemode := jg.previousGamemode
    currentDimensionData := jg.currentDimensionData }

/-- Claim C2: in the subsequent-switch branch of `handleBackendJoinGame`,
a player below protocol 1.16 whose JoinGame has dimension 0 is buffered
exactly JoinGame, Respawn(dimension −1), Respawn(dimension 0), in that
order, and a player at/above 1.16 is buffered JoinGame followed by a single
Respawn with the JoinGame's dimension; every Respawn mirrors the JoinGame
per `mirrorRespawn` (in particular `ShouldKeepPlayerData = false`). -/
theorem subsequent_join_client_packet_sequence (playerProto : Nat)
    (jg : JoinGame) :
    (playerProto < Minecraft_1_16 → jg.dimension = 0 →
      subsequentClientPackets playerProto jg =
        [Packet.joinGame jg, Packet.respawn (mirrorRespawn jg (-1)),
          Packet.respawn (mirrorRespawn jg 0)]) ∧
    (Minecraft_1_16 ≤ playerProto →
      subsequentClientPackets playerProto jg =
        [Packet.joinGame jg,
          Packet.respawn (mirrorRespawn jg jg.dimension)]) := by
  constructor
  · intro hp hd
    unfold subsequentClientPackets mirrorRespawn
    rw [if_pos hp, if_pos hd, hd]
  · intro hp
    unfold subsequentClientPackets mirrorRespawn
    rw [if_neg (by omega)]

/-- Claim C2 witness: the two protocol cases evaluated at protocol 578
(Minecraft 1.15.2) with dimension 0 and at protocol 735 (Minecraft 1.16)
with dimension 2. -/
theorem subsequent_join_client_packet_sequence_witness :
    subsequentClientPackets 578 jgSample0 =
      [Packet.joinGame jgSample0, Packet.respawn (mirrorRespawn jgSample0 (-1)),
        Packet.respawn (mirrorRespawn jgSample0 0)] ∧
    subsequentClientPackets 735 jgSample2 =
      [Packet.joinGame jgSample2,
        Packet.respawn (mirrorRespawn jgSample2 jgSample2.dimension)] :=
  ⟨(subsequent_join_client_packet_sequence 578 jgSample0).1 (by decide) rfl,
    (subsequent_join_client_packet_sequence 735 jgSample2).2 (by decide)⟩

/-- Claim C3 (code-bug evaluation): `handleKeepAlive` at a matching
`RandomId` (7) with `lastPingSent = 0` and wall clock 2 000 000 000 ns
(2 s after the epoch) sets the ping to now − lastPingSent and forwards the
packet, but after the successful forward stores `lastPingSent = 0` — the
sub-second fraction `now.Nanosecond()/1ms` — whereas the wall-clock
millisecond time the claim (and the read side of the same code) requires
is 2000.  A mismatched `RandomId` (8) is dropped with no state change. -/
theorem keepAlive_lastPingSent_not_wall_clock_millis :
    handleKeepAlive true true 7 2000000000 true ⟨-1, 7, 0⟩ =
      (⟨2000000000, 7, 0⟩, true) ∧
    (2000000000 : Int) / 1000000 = 2000 ∧
    (handleKeepAlive true true 7 2000000000 true ⟨-1, 7, 0⟩).1.lastPingSent ≠
      2000 ∧
    handleKeepAlive true true 8 2000000000 true ⟨-1, 7, 0⟩ =
      (⟨-1, 7, 0⟩, false) ∧
    handleKeepAlive false false 7 2000000000 true ⟨-1, 7, 0⟩ =
      (⟨-1, 7, 0⟩, false) := by
  refine ⟨?_, ?_, ?_, ?_, ?_⟩ <;> decide

/-- Claim C7: `canForwardPluginMessage` permits a backend-to-client plugin
message exactly when, at protocol ≤ 1.12.2 (340), the channel starts with
`MC|` or with the legacy Forge handshake channel or the message is a legacy
Register/Unregister frame; at protocol > 1.12.2 (every protocol ≥ 1.13),
the channel starts with `minecraft:`; or, failing those tests, the channel
is in the player's known-channel set. -/
theorem canForwardPluginMessage_characterization (protocol : Nat)
    (channel : String) (legacyReg legacyUnreg : Bool)
    (known : Finset String) :
    canForwardPluginMessage protocol channel legacyReg legacyUnreg known =
        true ↔
      ((protocol ≤ Minecraft_1_12_2 ∧
          (hasPrefix channel "MC|" = true ∨
            hasPrefix channel LegacyHandshakeChannel = true ∨
            legacyReg = true ∨ legacyUnreg = true)) ∨
        (Minecraft_1_12_2 < protocol ∧
          hasPrefix channel "minecraft:" = true) ∨
        channel ∈ known) := by
  unfold canForwardPluginMessage
  by_cases hp : protocol ≤ Minecraft_1_12_2
  · have hn : ¬ Minecraft_1_12_2 < protocol := by omega
    rw [if_pos hp]
    simp only [Bool.or_eq_true, decide_eq_true_iff]
    constructor
    · rintro ((((h | h) | h) | h) | h)
      · exact Or.inl ⟨hp, Or.inl h⟩
      · exact Or.inl ⟨hp, Or.inr (Or.inl h)⟩
      · exact Or.inl ⟨hp, Or.inr (Or.inr (Or.inl h))⟩
      · exact Or.inl ⟨hp, Or.inr (Or.inr (Or.inr h))⟩
      · exact Or.inr (Or.inr h)
    · rintro (⟨_, (h | h | h | h)⟩ | ⟨hlt, _⟩ | h)
      · exact Or.inl (Or.inl (Or.inl (Or.inl h)))
      · exact Or.inl (Or.inl (Or.inl (Or.inr h)))
      · exact Or.inl (Or.inl (Or.inr h))
      · exact Or.inl (Or.inr h)
      · exact absurd hlt hn
      · exact Or.inr h
  · have hn : Minecraft_1_12_2 < protocol := by omega
    rw [if_neg hp]
    simp only [Bool.or_eq_true, decide_eq_true_iff]
    constructor
    · rintro (h | h)
      · exact Or.inr (Or.inl ⟨hn, h⟩)
      · exact Or.inr (Or.inr h)
    · rintro (⟨hle, _⟩ | ⟨_, h⟩ | h)
      · exact absurd hle hp
      · exact Or.inl h
      · exact Or.inr h

/-- Claim C8: `teardown` disconnects the in-flight and the current backend
connections (each exactly when present), always fires a `DisconnectEvent`,
and reports ConflictingLogin iff unregistration succeeded with the
duplicate-connection flag set, SuccessfulLogin iff it succeeded without the
flag, CanceledByProxy iff it failed with knownDisconnect set, and
CanceledByUser iff it failed with knownDisconnect clear. -/
theorem teardown_characterization (inFlightPresent currentPresent
    unregisterOk dupFlag knownDisconnect : Bool) :
    (teardown inFlightPresent currentPresent unregisterOk dupFlag
        knownDisconnect).disconnectedInFlight = inFlightPresent ∧
    (teardown inFlightPresent currentPresent unregisterOk dupFlag
        knownDisconnect).disconnectedCurrent = currentPresent ∧
    (teardown inFlightPresent currentPresent unregisterOk dupFlag
        knownDisconnect).eventFired = true ∧
    ((teardown inFlightPresent currentPresent unregisterOk dupFlag
        knownDisconnect).status = .conflictingLogin ↔
      unregisterOk = true ∧ dupFlag = true) ∧
    ((teardown inFlightPresent currentPresent unregisterOk dupFlag
        knownDisconnect).status = .successfulLogin ↔
      unregisterOk = true ∧ dupFlag = false) ∧
    ((teardown inFlightPresent currentPresent unregisterOk dupFlag
        knownDisconnect).status = .canceledByProxy ↔
      unregisterOk = false ∧ knownDisconnect = true) ∧
    ((teardown inFlightPresent currentPresent unregisterOk dupFlag
        knownDisconnect).status = .canceledByUser ↔
      unregisterOk = false ∧ knownDisconnect = false) := by
  cases unregisterOk <;> cases dupFlag <;> cases knownDisconnect <;>
    simp [teardown]

/-- A 257-byte (all-ASCII) chat message, one byte over the server-bound
limit. -/
def longChatMessage : String := String.mk (List.replicate 257 'a')

/-- Claim C4 counterexample: `handleChat` performs no length check — a
257-character chat message (with the chat event allowed and the player
active) is forwarded to the backend unchanged, so the claim that the client
chat handler refuses to forward messages over 256 characters is false. -/
theorem handleChat_forwards_overlong_message :
    256 < longChatMessage.utf8ByteSize ∧
    (handleChat true true longChatMessage true true false).forwarded =
      some (Packet.chat longChatMessage ChatMessageType) := by
  constructor
  · decide
  · rfl

/-- Claim C4 (amended): `SpoofChatInput` rejects any input longer than 256
bytes with `ErrTooLongChatMessage` before any `WritePacket` call, but the
client chat handler performs no length check: it forwards an allowed
non-command chat message of any length to the backend. -/
theorem spoofChatInput_rejects_overlong_input (input : String)
    (serverConnPresent backendConnPresent writeOk : Bool)
    (h : MaxServerBoundMessageLength < input.utf8ByteSize) :
    SpoofChatInput input serverConnPresent backendConnPresent writeOk =
      ⟨[], some .tooLongChatMessage⟩ ∧
    (hasPrefix input "/" = false →
      (handleChat true true input true true false).forwarded =
        some (Packet.chat input ChatMessageType)) := by
  constructor
  · unfold SpoofChatInput
    rw [if_pos h]
  · intro hs
    unfold handleChat
    rw [if_neg (by simp), if_neg (by simp), hs]
    simp

/-- Claim C4 witness: the amended claim evaluated at the 257-byte message
with all flags true. -/
theorem spoofChatInput_rejects_overlong_input_witness :
    SpoofChatInput longChatMessage true true true =
      ⟨[], some .tooLongChatMessage⟩ ∧
    (hasPrefix longChatMessage "/" = false →
      (handleChat true true longChatMessage true true false).forwarded =
        some (Packet.chat longChatMessage ChatMessageType)) :=
  spoofChatInput_rejects_overlong_input longChatMessage true true true
    (by decide)

/-- Claim C10: while the player has no backend (`connectedServer()` is nil
or its underlying connection is nil), `handlePluginMessage` and
`handleChat` discard the packet entirely: no event fires, no command runs,
nothing is queued, the known-channel set is untouched, and nothing is
written to any connection. -/
theorem no_backend_discards_chat_and_plugin_messages
    (serverConnPresent backendConnPresent : Bool) (f : PmFlags)
    (channels : List String) (known : Finset String) (message : String)
    (eventAllowed active registryHas : Bool)
    (h : serverConnPresent = false ∨ backendConnPresent = false) :
    handlePluginMessage serverConnPresent backendConnPresent f channels
        known = ⟨known, 0, false, false, false, false⟩ ∧
    handleChat serverConnPresent backendConnPresent message eventAllowed
        active registryHas = ⟨false, false, false, none⟩ := by
  have hnot : ¬(serverConnPresent = true ∧ backendConnPresent = true) := by
    rcases h with h | h <;> simp [h]
  constructor
  · unfold handlePluginMessage
    rw [if_pos hnot]
  · unfold handleChat
    rcases h with h | h
    · rw [if_pos (by simp [h])]
    · by_cases hs : serverConnPresent = true
      · rw [if_neg (by simp [hs]), if_pos (by simp [h])]
      · rw [if_pos (by simpa using hs)]

/-- Claim C10 witness: a plugin message and a chat message arriving with no
server connection are discarded. -/
theorem no_backend_discards_witness :
    handlePluginMessage false true
        ⟨true, true, false, false, true, false, false, false, false, false,
          false, false⟩ ["x"] ∅ = ⟨∅, 0, false, false, false, false⟩ ∧
    handleChat false true "hello" true true false =
      ⟨false, false, false, none⟩ :=
  no_backend_discards_chat_and_plugin_messages false true
    ⟨true, true, false, false, true, false, false, false, false, false,
      false, false⟩ ["x"] ∅ "hello" true true false (Or.inl rfl)

/-- Claim C5: with a connected destination (`ensureConnected` succeeded),
`handleBackendJoinGame` returns success and runs `completeJoin` on the
destination (the promotion to `currentServer`) exactly when every
`BufferPacket` call it makes on the client and on the backend connection and
both final flushes succeed; on any buffer or flush error — and equally when
`ensureConnected` fails — it returns failure without running `completeJoin`,
so a failed switch leaves the player's `currentServer` unchanged.  `handled`
always equals `completeJoin`. -/
theorem joinGame_success_iff_buffers_and_flushes (spawned : Bool)
    (playerProto serverProto : Nat) (jg : JoinGame)
    (knownChannels : List String) (queued : List Packet)
    (clientOk serverOk : Nat → Bool) (clientFl serverFl : Bool) :
    ((handleBackendJoinGame true spawned playerProto serverProto jg
        knownChannels queued (Conn.fresh clientOk clientFl)
        (Conn.fresh serverOk serverFl)).handled =
      (handleBackendJoinGame true spawned playerProto serverProto jg
        knownChannels queued (Conn.fresh clientOk clientFl)
        (Conn.fresh serverOk serverFl)).completeJoin) ∧
    ((handleBackendJoinGame true spawned playerProto serverProto jg
        knownChannels queued (Conn.fresh clientOk clientFl)
        (Conn.fresh serverOk serverFl)).completeJoin = true ↔
      ((∀ i, i < clientBufferCalls spawned playerProto → clientOk i = true) ∧
        (∀ i, i < serverBufferCalls knownChannels queued →
          serverOk i = true) ∧
        clientFl = true ∧ serverFl = true)) ∧
    (handleBackendJoinGame false spawned playerProto serverProto jg
        knownChannels queued (Conn.fresh clientOk clientFl)
        (Conn.fresh serverOk serverFl)).completeJoin = false := by
  refine ⟨joinGame_handled_eq_completeJoin true spawned playerProto
    serverProto jg knownChannels queued (Conn.fresh clientOk clientFl)
    (Conn.fresh serverOk serverFl), ?_, rfl⟩
  have hfreshC : (Conn.fresh clientOk clientFl).closed = false := rfl
  have hfreshS : (Conn.fresh serverOk serverFl).closed = false := rfl
  obtain ⟨n1, hn1⟩ : ∃ n,
      (if spawned then subsequentClientPackets playerProto jg
        else [Packet.joinGame jg]).length = n := ⟨_, rfl⟩
  have hcalls : clientBufferCalls spawned playerProto =
      n1 + (if Minecraft_1_8 ≤ playerProto then 1 else 0) := by
    rw [← hn1]
    unfold clientBufferCalls
    cases spawned
    · simp
    · simp [subsequentClientPackets_length]
  have hscalls : serverBufferCalls knownChannels queued =
      (if knownChannels = [] then 0 else 1) + queued.length := rfl
  -- Phase A: buffering the JoinGame/Respawn sequence to the client.
  cases h1 : bufferAll (if spawned then subsequentClientPackets playerProto jg
      else [Packet.joinGame jg]) (Conn.fresh clientOk clientFl) with
  | none =>
    have hno : ¬ ∀ i, i < n1 → clientOk i = true := by
      intro hall
      have hs : (bufferAll (if spawned then
          subsequentClientPackets playerProto jg else [Packet.joinGame jg])
          (Conn.fresh clientOk clientFl)).isSome = true := by
        refine (bufferAll_isSome _ _ hfreshC).mpr ?_
        intro i hi
        show clientOk (0 + i) = true
        rw [Nat.zero_add]
        exact hall i (by rw [← hn1]; exact hi)
      rw [h1] at hs
      simp at hs
    have hred : (handleBackendJoinGame true spawned playerProto serverProto
        jg knownChannels queued (Conn.fresh clientOk clientFl)
        (Conn.fresh serverOk serverFl)).completeJoin = false := by
      simp [handleBackendJoinGame, h1]
    rw [hred]
    exact iff_of_false (by simp)
      (fun hrhs => hno (fun i hi => hrhs.1 i (by omega)))
  | some player1 =>
    obtain ⟨hok1, hcnt1, hcl1, hfl1, _⟩ := bufferAll_some _ _ _ h1
    have hok1' : player1.okFun = clientOk := hok1
    have hcl1' : player1.closed = false := hcl1
    have hfl1' : player1.flushOk = clientFl := hfl1
    have hcnt1' : player1.count = n1 := by
      rw [hcnt1, ← hn1]
      exact Nat.zero_add _
    have hC1 : ∀ i, i < n1 → clientOk i = true := by
      have hs : (bufferAll (if spawned then
          subsequentClientPackets playerProto jg else [Packet.joinGame jg])
          (Conn.fresh clientOk clientFl)).isSome = true := by
        rw [h1]; rfl
      have hall := (bufferAll_isSome _ _ hfreshC).mp hs
      intro i hi
      have := hall i (by rw [hn1]; exact hi)
      simpa [Conn.fresh] using this
    -- Phase B: the REGISTER channels packet to the backend.
    by_cases hkn : knownChannels = []
    · -- no known channels: no register packet is buffered
      have hsc : serverBufferCalls knownChannels queued = queued.length := by
        rw [hscalls, if_pos hkn, Nat.zero_add]
      -- Phase C: draining the queued plugin messages.
      cases h3 : bufferAll queued (Conn.fresh serverOk serverFl) with
      | none =>
        have hnoS : ¬ ∀ i, i < queued.length → serverOk i = true := by
          intro hall
          have hs : (bufferAll queued
              (Conn.fresh serverOk serverFl)).isSome = true := by
            refine (bufferAll_isSome _ _ hfreshS).mpr ?_
            intro i hi
            show serverOk (0 + i) = true
            rw [Nat.zero_add]
            exact hall i hi
          rw [h3] at hs
          simp at hs
        have hred : (handleBackendJoinGame true spawned playerProto
            serverProto jg knownChannels queued (Conn.fresh clientOk clientFl)
            (Conn.fresh serverOk serverFl)).completeJoin = false := by
          simp [handleBackendJoinGame, h1, hkn, h3]
        rw [hred]
        exact iff_of_false (by simp)
          (fun hrhs => hnoS (fun i hi => hrhs.2.1 i (by omega)))
      | some server2 =>
        obtain ⟨hokS, hcntS, hclS, hflS, _⟩ := bufferAll_some _ _ _ h3
        have hokS' : server2.okFun = serverOk := hokS
        have hclS' : server2.closed = false := hclS
        have hflS' : server2.flushOk = serverFl := hflS
        have hS1 : ∀ i, i < queued.length → serverOk i = true := by
          have hs : (bufferAll queued
              (Conn.fresh serverOk serverFl)).isSome = true := by
            rw [h3]; rfl
          have hall := (bufferAll_isSome _ _ hfreshS).mp hs
          intro i hi
          simpa [Conn.fresh] using hall i hi
        have hserver : ∀ i, i < serverBufferCalls knownChannels queued →
            serverOk i = true := by
          intro i hi
          rw [hsc] at hi
          exact hS1 i hi
        -- Phase D: the reset-title packet to the client.
        by_cases h8 : Minecraft_1_8 ≤ playerProto
        · cases h4 : bufferPacket (Packet.resetTitle playerProto) player1 with
          | none =>
            have hbad : clientOk n1 = false := by
              have := bufferPacket_eq_none hcl1' h4
              rw [hok1', hcnt1'] at this
              exact this
            have hred : (handleBackendJoinGame true spawned playerProto
                serverProto jg knownChannels queued
                (Conn.fresh clientOk clientFl)
                (Conn.fresh serverOk serverFl)).completeJoin = false := by
              simp [handleBackendJoinGame, h1, hkn, h3, h8, h4]
            rw [hred]
            refine iff_of_false (by simp) (fun hrhs => ?_)
            have := hrhs.1 n1 (by rw [hcalls, if_pos h8]; omega)
            rw [hbad] at this
            cases this
          | some player2 =>
            obtain ⟨_, hk4, _, hok2, hcnt2, hfl2, hcl2⟩ :=
              bufferPacket_eq_some h4
            have hCn1 : clientOk n1 = true := by
              rw [hok1', hcnt1'] at hk4
              exact hk4
            have hclient : ∀ i, i < clientBufferCalls spawned playerProto →
                clientOk i = true := by
              intro i hi
              rw [hcalls, if_pos h8] at hi
              by_cases hi2 : i < n1
              · exact hC1 i hi2
              · have : i = n1 := by omega
                rw [this]
                exact hCn1
            -- Phase E: flush the client connection.
            cases h5 : flushConn player2 with
            | none =>
              have hbad : clientFl = false := by
                have := flushConn_eq_none h5
                rw [hfl2, hfl1'] at this
                exact this
              have hred : (handleBackendJoinGame true spawned playerProto
                  serverProto jg knownChannels queued
                  (Conn.fresh clientOk clientFl)
                  (Conn.fresh serverOk serverFl)).completeJoin = false := by
                simp [handleBackendJoinGame, h1, hkn, h3, h8, h4, h5]
              rw [hred]
              refine iff_of_false (by simp) (fun hrhs => ?_)
              rw [hrhs.2.2.1] at hbad
              cases hbad
            | some player3 =>
              obtain ⟨hflok, hp3⟩ := flushConn_eq_some h5
              have hCfl : clientFl = true := by
                rw [hfl2, hfl1'] at hflok
                exact hflok
              -- Phase F: flush the backend connection.
              cases h6 : flushConn server2 with
              | none =>
                have hbad : serverFl = false := by
                  have := flushConn_eq_none h6
                  rw [hflS'] at this
                  exact this
                have hred : (handleBackendJoinGame true spawned playerProto
                    serverProto jg knownChannels queued
                    (Conn.fresh clientOk clientFl)
                    (Conn.fresh serverOk serverFl)).completeJoin = false := by
                  simp [handleBackendJoinGame, h1, hkn, h3, h8, h4, h5, h6]
                rw [hred]
                refine iff_of_false (by simp) (fun hrhs => ?_)
                rw [hrhs.2.2.2] at hbad
                cases hbad
              | some server3 =>
                have hSfl : serverFl = true := by
                  have := (flushConn_eq_some h6).1
                  rw [hflS'] at this
                  exact this
                have hred : (handleBackendJoinGame true spawned playerProto
                    serverProto jg knownChannels queued
                    (Conn.fresh clientOk clientFl)
                    (Conn.fresh serverOk serverFl)).completeJoin = true := by
                  simp [handleBackendJoinGame, h1, hkn, h3, h8, h4, h5, h6]
                rw [hred]
                exact iff_of_true rfl ⟨hclient, hserver, hCfl, hSfl⟩
        · -- no reset title below 1.8
          have hclient : ∀ i, i < clientBufferCalls spawned playerProto →
              clientOk i = true := by
            intro i hi
            rw [hcalls, if_neg h8, Nat.add_zero] at hi
            exact hC1 i hi
          cases h5 : flushConn player1 with
          | none =>
            have hbad : clientFl = false := by
              have := flushConn_eq_none h5
              rw [hfl1'] at this
              exact this
            have hred : (handleBackendJoinGame true spawned playerProto
                serverProto jg knownChannels queued
                (Conn.fresh clientOk clientFl)
                (Conn.fresh serverOk serverFl)).completeJoin = false := by
              simp [handleBackendJoinGame, h1, hkn, h3, h8, h5]
            rw [hred]
            refine iff_of_false (by simp) (fun hrhs => ?_)
            rw [hrhs.2.2.1] at hbad
            cases hbad
          | some player3 =>
            have hCfl : clientFl = true := by
              have := (flushConn_eq_some h5).1
              rw [hfl1'] at this
              exact this
            cases h6 : flushConn server2 with
            | none =>
              have hbad : serverFl = false := by
                have := flushConn_eq_none h6
                rw [hflS'] at this
                exact this
              have hred : (handleBackendJoinGame true spawned playerProto
                  serverProto jg knownChannels queued
                  (Conn.fresh clientOk clientFl)
                  (Conn.fresh serverOk serverFl)).completeJoin = false := by
                simp [handleBackendJoinGame, h1, hkn, h3, h8, h5, h6]
              rw [hred]
              refine iff_of_false (by simp) (fun hrhs => ?_)
              rw [hrhs.2.2.2] at hbad
              cases hbad
            | some server3 =>
              have hSfl : serverFl = true := by
                have := (flushConn_eq_some h6).1
                rw [hflS'] at this
                exact this
              have hred : (handleBackendJoinGame true spawned playerProto
                  serverProto jg knownChannels queued
                  (Conn.fresh clientOk clientFl)
                  (Conn.fresh serverOk serverFl)).completeJoin = true := by
                simp [handleBackendJoinGame, h1, hkn, h3, h8, h5, h6]
              rw [hred]
              exact iff_of_true rfl ⟨hclient, hserver, hCfl, hSfl⟩
    · -- known channels nonempty: a register packet is buffered first
      cases h2 : bufferPacket (Packet.register serverProto knownChannels)
          (Conn.fresh serverOk serverFl) with
      | none =>
        have hbad : serverOk 0 = false := bufferPacket_eq_none hfreshS h2
        have hred : (handleBackendJoinGame true spawned playerProto
            serverProto jg knownChannels queued (Conn.fresh clientOk clientFl)
            (Conn.fresh serverOk serverFl)).completeJoin = false := by
          simp [handleBackendJoinGame, h1, hkn, h2]
        rw [hred]
        refine iff_of_false (by simp) (fun hrhs => ?_)
        have := hrhs.2.1 0 (by rw [hscalls, if_neg hkn]; omega)
        rw [hbad] at this
        cases this
      | some server1 =>
        obtain ⟨_, hk2, _, hokB, hcntB, hflB, hclB⟩ := bufferPacket_eq_some h2
        have hS0 : serverOk 0 = true := hk2
        have hokB' : server1.okFun = serverOk := hokB
        have hcntB' : server1.count = 1 := hcntB
        have hclB' : server1.closed = false := hclB
        have hflB' : server1.flushOk = serverFl := hflB
        -- Phase C: draining the queued plugin messages.
        cases h3 : bufferAll queued server1 with
        | none =>
          have hnoS : ¬ ∀ i, i < queued.length → serverOk (1 + i) = true := by
            intro hall
            have hs : (bufferAll queued server1).isSome = true := by
              refine (bufferAll_isSome queued server1 hclB').mpr ?_
              intro i hi
              rw [hokB', hcntB']
              exact hall i hi
            rw [h3] at hs
            simp at hs
          have hred : (handleBackendJoinGame true spawned playerProto
              serverProto jg knownChannels queued
              (Conn.fresh clientOk clientFl)
              (Conn.fresh serverOk serverFl)).completeJoin = false := by
            simp [handleBackendJoinGame, h1, hkn, h2, h3]
          rw [hred]
          refine iff_of_false (by simp) (fun hrhs => ?_)
          refine hnoS (fun i hi => ?_)
          exact hrhs.2.1 (1 + i) (by rw [hscalls, if_neg hkn]; omega)
        | some server2 =>
          obtain ⟨hokS, hcntS, hclS, hflS, _⟩ := bufferAll_some _ _ _ h3
          have hokS' : server2.okFun = serverOk := by rw [hokS, hokB']
          have hclS' : server2.closed = false := by rw [hclS, hclB']
          have hflS' : server2.flushOk = serverFl := by rw [hflS, hflB']
          have hS1 : ∀ i, i < queued.length → serverOk (1 + i) = true := by
            have hs : (bufferAll queued server1).isSome = true := by
              rw [h3]; rfl
            have hall := (bufferAll_isSome queued server1 hclB').mp hs
            intro i hi
            have := hall i hi
            rw [hokB', hcntB'] at this
            exact this
          have hserver : ∀ i, i < serverBufferCalls knownChannels queued →
              serverOk i = true := by
            intro i hi
            rw [hscalls, if_neg hkn] at hi
            cases i with
            | zero => exact hS0
            | succ j =>
              have := hS1 j (by omega)
              rw [Nat.add_comm] at this
              exact this
          -- Phase D: the reset-title packet to the client.
          by_cases h8 : Minecraft_1_8 ≤ playerProto
          · cases h4 : bufferPacket (Packet.resetTitle playerProto)
                player1 with
            | none =>
              have hbad : clientOk n1 = false := by
                have := bufferPacket_eq_none hcl1' h4
                rw [hok1', hcnt1'] at this
                exact this
              have hred : (handleBackendJoinGame true spawned playerProto
                  serverProto jg knownChannels queued
                  (Conn.fresh clientOk clientFl)
                  (Conn.fresh serverOk serverFl)).completeJoin = false := by
                simp [handleBackendJoinGame, h1, hkn, h2, h3, h8, h4]
              rw [hred]
              refine iff_of_false (by simp) (fun hrhs => ?_)
              have := hrhs.1 n1 (by rw [hcalls, if_pos h8]; omega)
              rw [hbad] at this
              cases this
            | some player2 =>
              obtain ⟨_, hk4, _, hok2, hcnt2, hfl2, hcl2⟩ :=
                bufferPacket_eq_some h4
              have hCn1 : clientOk n1 = true := by
                rw [hok1', hcnt1'] at hk4
                exact hk4
              have hclient : ∀ i,
                  i < clientBufferCalls spawned playerProto →
                  clientOk i = true := by
                intro i hi
                rw [hcalls, if_pos h8] at hi
                by_cases hi2 : i < n1
                · exact hC1 i hi2
                · have : i = n1 := by omega
                  rw [this]
                  exact hCn1
              -- Phase E: flush the client connection.
              cases h5 : flushConn player2 with
              | none =>
                have hbad : clientFl = false := by
                  have := flushConn_eq_none h5
                  rw [hfl2, hfl1'] at this
                  exact this
                have hred : (handleBackendJoinGame true spawned playerProto
                    serverProto jg knownChannels queued
                    (Conn.fresh clientOk clientFl)
                    (Conn.fresh serverOk serverFl)).completeJoin = false := by
                  simp [handleBackendJoinGame, h1, hkn, h2, h3, h8, h4, h5]
                rw [hred]
                refine iff_of_false (by simp) (fun hrhs => ?_)
                rw [hrhs.2.2.1] at hbad
                cases hbad
              | some player3 =>
                have hCfl : clientFl = true := by
                  have := (flushConn_eq_some h5).1
                  rw [hfl2, hfl1'] at this
                  exact this
                -- Phase F: flush the backend connection.
                cases h6 : flushConn server2 with
                | none =>
                  have hbad : serverFl = false := by
                    have := flushConn_eq_none h6
                    rw [hflS'] at this
                    exact this
                  have hred : (handleBackendJoinGame true spawned playerProto
                      serverProto jg knownChannels queued
                      (Conn.fresh clientOk clientFl)
                      (Conn.fresh serverOk serverFl)).completeJoin =
                      false := by
                    simp [handleBackendJoinGame, h1, hkn, h2, h3, h8, h4, h5,
                      h6]
                  rw [hred]
                  refine iff_of_false (by simp) (fun hrhs => ?_)
                  rw [hrhs.2.2.2] at hbad
                  cases hbad
                | some server3 =>
                  have hSfl : serverFl = true := by
                    have := (flushConn_eq_some h6).1
                    rw [hflS'] at this
                    exact this
                  have hred : (handleBackendJoinGame true spawned playerProto
                      serverProto jg knownChannels queued
                      (Conn.fresh clientOk clientFl)
                      (Conn.fresh serverOk serverFl)).completeJoin =
                      true := by
                    simp [handleBackendJoinGame, h1, hkn, h2, h3, h8, h4, h5,
                      h6]
                  rw [hred]
                  exact iff_of_true rfl ⟨hclient, hserver, hCfl, hSfl⟩
          · have hclient : ∀ i, i < clientBufferCalls spawned playerProto →
                clientOk i = true := by
              intro i hi
              rw [hcalls, if_neg h8, Nat.add_zero] at hi
              exact hC1 i hi
            cases h5 : flushConn player1 with
            | none =>
              have hbad : clientFl = false := by
                have := flushConn_eq_none h5
                rw [hfl1'] at this
                exact this
              have hred : (handleBackendJoinGame true spawned playerProto
                  serverProto jg knownChannels queued
                  (Conn.fresh clientOk clientFl)
                  (Conn.fresh serverOk serverFl)).completeJoin = false := by
                simp [handleBackendJoinGame, h1, hkn, h2, h3, h8, h5]
              rw [hred]
              refine iff_of_false (by simp) (fun hrhs => ?_)
              rw [hrhs.2.2.1] at hbad
              cases hbad
            | some player3 =>
              have hCfl : clientFl = true := by
                have := (flushConn_eq_some h5).1
                rw [hfl1'] at this
                exact this
              cases h6 : flushConn server2 with
              | none =>
                have hbad : serverFl = false := by
                  have := flushConn_eq_none h6
                  rw [hflS'] at this
                  exact this
                have hred : (handleBackendJoinGame true spawned playerProto
                    serverProto jg knownChannels queued
                    (Conn.fresh clientOk clientFl)
                    (Conn.fresh serverOk serverFl)).completeJoin = false := by
                  simp [handleBackendJoinGame, h1, hkn, h2, h3, h8, h5, h6]
                rw [hred]
                refine iff_of_false (by simp) (fun hrhs => ?_)
                rw [hrhs.2.2.2] at hbad
                cases hbad
              | some server3 =>
                have hSfl : serverFl = true := by
                  have := (flushConn_eq_some h6).1
                  rw [hflS'] at this
                  exact this
                have hred : (handleBackendJoinGame true spawned playerProto
                    serverProto jg knownChannels queued
                    (Conn.fresh clientOk clientFl)
                    (Conn.fresh serverOk serverFl)).completeJoin = true := by
                  simp [handleBackendJoinGame, h1, hkn, h2, h3, h8, h5, h6]
                rw [hred]
                exact iff_of_true rfl ⟨hclient, hserver, hCfl, hSfl⟩

/-- Claim C5 witness: a subsequent switch at protocol 578 with one known
channel, an empty queue, and an all-success environment completes the join;
the same call with a failing client flush does not. -/
theorem joinGame_success_iff_buffers_and_flushes_witness :
    (handleBackendJoinGame true true 578 578 jgSample0 ["velocity:main"] []
        (Conn.fresh (fun _ => true) true)
        (Conn.fresh (fun _ => true) true)).completeJoin = true ∧
    (handleBackendJoinGame true true 578 578 jgSample0 ["velocity:main"] []
        (Conn.fresh (fun _ => true) false)
        (Conn.fresh (fun _ => true) true)).completeJoin = false := by
  constructor
  · exact (joinGame_success_iff_buffers_and_flushes true 578 578 jgSample0
      ["velocity:main"] [] (fun _ => true) (fun _ => true) true
      true).2.1.mpr ⟨fun i _ => rfl, fun i _ => rfl, rfl, rfl⟩
  · by_contra hcon
    have h := (joinGame_success_iff_buffers_and_flushes true 578 578 jgSample0
      ["velocity:main"] [] (fun _ => true) (fun _ => true) false
      true).2.1.mp (by simpa using hcon)
    exact Bool.false_ne_true h.2.2.1

/-- Claim C6: for the first JoinGame ever received for a player (the
`spawned` flag compare-and-swaps false→true, embedded here as
`spawned = false` on entry), provided the initial buffer call succeeds:
`onFirstJoin` runs on the player's client-side Forge phase, the `spawned`
flag is left true, on success the only packets buffered to the client are
the JoinGame (plus the later reset-title for protocol ≥ 1.8) and never a
Respawn, and a call with `spawned = true` (every later JoinGame) never runs
`onFirstJoin` (it takes the subsequent-switch branch). -/
theorem first_joinGame_buffers_joinGame_only
    (playerProto serverProto : Nat) (jg : JoinGame)
    (knownChannels : List String) (queued : List Packet)
    (clientOk serverOk : Nat → Bool) (clientFl serverFl : Bool)
    (h0 : clientOk 0 = true) :
    ((handleBackendJoinGame true false playerProto serverProto jg
        knownChannels queued (Conn.fresh clientOk clientFl)
        (Conn.fresh serverOk serverFl)).onFirstJoin = true) ∧
    ((handleBackendJoinGame true false playerProto serverProto jg
        knownChannels queued (Conn.fresh clientOk clientFl)
        (Conn.fresh serverOk serverFl)).spawnedAfter = true) ∧
    ((handleBackendJoinGame true false playerProto serverProto jg
        knownChannels queued (Conn.fresh clientOk clientFl)
        (Conn.fresh serverOk serverFl)).completeJoin = true →
      (handleBackendJoinGame true false playerProto serverProto jg
        knownChannels queued (Conn.fresh clientOk clientFl)
        (Conn.fresh serverOk serverFl)).player.buffered =
        Packet.joinGame jg ::
          (if Minecraft_1_8 ≤ playerProto then [Packet.resetTitle playerProto]
            else [])) ∧
    (∀ rsp, Packet.respawn rsp ∉
      (handleBackendJoinGame true false playerProto serverProto jg
        knownChannels queued (Conn.fresh clientOk clientFl)
        (Conn.fresh serverOk serverFl)).player.buffered) ∧
    (∀ spawned, spawned = true →
      (handleBackendJoinGame true spawned playerProto serverProto jg
        knownChannels queued (Conn.fresh clientOk clientFl)
        (Conn.fresh serverOk serverFl)).onFirstJoin = false) := by
  have h1 : bufferAll [Packet.joinGame jg] (Conn.fresh clientOk clientFl) =
      some ⟨[Packet.joinGame jg], clientOk, 1, clientFl, false⟩ := by
    simp [bufferAll, bufferPacket, Conn.fresh, h0]
  have hmain : ((handleBackendJoinGame true false playerProto serverProto jg
      knownChannels queued (Conn.fresh clientOk clientFl)
      (Conn.fresh serverOk serverFl)).completeJoin = true →
      (handleBackendJoinGame true false playerProto serverProto jg
        knownChannels queued (Conn.fresh clientOk clientFl)
        (Conn.fresh serverOk serverFl)).player.buffered =
        Packet.joinGame jg ::
          (if Minecraft_1_8 ≤ playerProto then [Packet.resetTitle playerProto]
            else [])) ∧
      (∀ rsp, Packet.respawn rsp ∉
        (handleBackendJoinGame true false playerProto serverProto jg
          knownChannels queued (Conn.fresh clientOk clientFl)
          (Conn.fresh serverOk serverFl)).player.buffered) := by
    cases h2 : (if knownChannels = [] then some (Conn.fresh serverOk serverFl)
        else bufferPacket (Packet.register serverProto knownChannels)
          (Conn.fresh serverOk serverFl)) with
    | none =>
      have hredC : (handleBackendJoinGame true false playerProto serverProto
          jg knownChannels queued (Conn.fresh clientOk clientFl)
          (Conn.fresh serverOk serverFl)).completeJoin = false := by
        simp [handleBackendJoinGame, h1, h2]
      have hredP : (handleBackendJoinGame true false playerProto serverProto
          jg knownChannels queued (Conn.fresh clientOk clientFl)
          (Conn.fresh serverOk serverFl)).player =
          (⟨[Packet.joinGame jg], clientOk, 1, clientFl, false⟩ : Conn) := by
        simp [handleBackendJoinGame, h1, h2]
      constructor
      · intro hcon
        rw [hredC] at hcon
        cases hcon
      · intro rsp
        rw [hredP]
        simp
    | some server1 =>
      cases h3 : bufferAll queued server1 with
      | none =>
        have hredC : (handleBackendJoinGame true false playerProto
            serverProto jg knownChannels queued (Conn.fresh clientOk clientFl)
            (Conn.fresh serverOk serverFl)).completeJoin = false := by
          simp [handleBackendJoinGame, h1, h2, h3]
        have hredP : (handleBackendJoinGame true false playerProto
            serverProto jg knownChannels queued (Conn.fresh clientOk clientFl)
            (Conn.fresh serverOk serverFl)).player =
            (⟨[Packet.joinGame jg], clientOk, 1, clientFl, false⟩ : Conn) := by
          simp [handleBackendJoinGame, h1, h2, h3]
        constructor
        · intro hcon
          rw [hredC] at hcon
          cases hcon
        · intro rsp
          rw [hredP]
          simp
      | some server2 =>
        cases h4 : (if Minecraft_1_8 ≤ playerProto then
            bufferPacket (Packet.resetTitle playerProto)
              (⟨[Packet.joinGame jg], clientOk, 1, clientFl, false⟩ : Conn)
          else some (⟨[Packet.joinGame jg], clientOk, 1, clientFl, false⟩ :
            Conn)) with
        | none =>
          have hredC : (handleBackendJoinGame true false playerProto
              serverProto jg knownChannels queued
              (Conn.fresh clientOk clientFl)
              (Conn.fresh serverOk serverFl)).completeJoin = false := by
            simp [handleBackendJoinGame, h1, h2, h3, h4]
          have hredP : (handleBackendJoinGame true false playerProto
              serverProto jg knownChannels queued
              (Conn.fresh clientOk clientFl)
              (Conn.fresh serverOk serverFl)).player =
              (⟨[Packet.joinGame jg], clientOk, 1, clientFl, false⟩ :
                Conn) := by
            simp [handleBackendJoinGame, h1, h2, h3, h4]
          constructor
          · intro hcon
            rw [hredC] at hcon
            cases hcon
          · intro rsp
            rw [hredP]
            simp
        | some player2 =>
          have hbuf2 : player2.buffered = Packet.joinGame jg ::
              (if Minecraft_1_8 ≤ playerProto then
                [Packet.resetTitle playerProto] else []) := by
            by_cases h8 : Minecraft_1_8 ≤ playerProto
            · rw [if_pos h8] at h4
              obtain ⟨_, _, hbuf, _, _, _, _⟩ := bufferPacket_eq_some h4
              rw [hbuf, if_pos h8]
              rfl
            · rw [if_neg h8] at h4
              injection h4 with h4
              rw [← h4, if_neg h8]
          cases h5 : flushConn player2 with
          | none =>
            have hredC : (handleBackendJoinGame true false playerProto
                serverProto jg knownChannels queued
                (Conn.fresh clientOk clientFl)
                (Conn.fresh serverOk serverFl)).completeJoin = false := by
              simp [handleBackendJoinGame, h1, h2, h3, h4, h5]
            have hredP : (handleBackendJoinGame true false playerProto
                serverProto jg knownChannels queued
                (Conn.fresh clientOk clientFl)
                (Conn.fresh serverOk serverFl)).player = player2 := by
              simp [handleBackendJoinGame, h1, h2, h3, h4, h5]
            constructor
            · intro hcon
              rw [hredC] at hcon
              cases hcon
            · intro rsp
              rw [hredP]
              by_cases h8 : Minecraft_1_8 ≤ playerProto <;>
                simp [hbuf2, h8]
          | some player3 =>
            obtain ⟨_, hp3⟩ := flushConn_eq_some h5
            cases h6 : flushConn server2 with
            | none =>
              have hredC : (handleBackendJoinGame true false playerProto
                  serverProto jg knownChannels queued
                  (Conn.fresh clientOk clientFl)
                  (Conn.fresh serverOk serverFl)).completeJoin = false := by
                simp [handleBackendJoinGame, h1, h2, h3, h4, h5, h6]
              have hredP : (handleBackendJoinGame true false playerProto
                  serverProto jg knownChannels queued
                  (Conn.fresh clientOk clientFl)
                  (Conn.fresh serverOk serverFl)).player = player3 := by
                simp [handleBackendJoinGame, h1, h2, h3, h4, h5, h6]
              constructor
              · intro hcon
                rw [hredC] at hcon
                cases hcon
              · intro rsp
                rw [hredP, hp3]
                by_cases h8 : Minecraft_1_8 ≤ playerProto <;>
                  simp [hbuf2, h8]
            | some server3 =>
              have hredC : (handleBackendJoinGame true false playerProto
                  serverProto jg knownChannels queued
                  (Conn.fresh clientOk clientFl)
                  (Conn.fresh serverOk serverFl)).completeJoin = true := by
                simp [handleBackendJoinGame, h1, h2, h3, h4, h5, h6]
              have hredP : (handleBackendJoinGame true false playerProto
                  serverProto jg knownChannels queued
                  (Conn.fresh clientOk clientFl)
                  (Conn.fresh serverOk serverFl)).player = player3 := by
                simp [handleBackendJoinGame, h1, h2, h3, h4, h5, h6]
              constructor
              · intro _
                rw [hredP, hp3]
                exact hbuf2
              · intro rsp
                rw [hredP, hp3]
                by_cases h8 : Minecraft_1_8 ≤ playerProto <;>
                  simp [hbuf2, h8]
  refine ⟨?_, joinGame_spawnedAfter_true false playerProto serverProto jg
    knownChannels queued (Conn.fresh clientOk clientFl)
    (Conn.fresh serverOk serverFl), hmain.1, hmain.2, ?_⟩
  · simp [joinGame_onFirstJoin_eq, h1]
  · intro spawned hsp
    rw [hsp, joinGame_onFirstJoin_eq]
    rfl

/-- Claim C6 witness: a first join at protocol 578 with an all-success
environment buffers JoinGame then ResetTitle (protocol ≥ 1.8), runs
`onFirstJoin`, and a repeat call with the `spawned` flag already set does
not run `onFirstJoin`. -/
theorem first_joinGame_buffers_joinGame_only_witness :
    ((handleBackendJoinGame true false 578 578 jgSample0 [] []
        (Conn.fresh (fun _ => true) true)
        (Conn.fresh (fun _ => true) true)).onFirstJoin = true) ∧
    ((handleBackendJoinGame true false 578 578 jgSample0 [] []
        (Conn.fresh (fun _ => true) true)
        (Conn.fresh (fun _ => true) true)).spawnedAfter = true) ∧
    ((handleBackendJoinGame true false 578 578 jgSample0 [] []
        (Conn.fresh (fun _ => true) true)
        (Conn.fresh (fun _ => true) true)).completeJoin = true →
      (handleBackendJoinGame true false 578 578 jgSample0 [] []
        (Conn.fresh (fun _ => true) true)
        (Conn.fresh (fun _ => true) true)).player.buffered =
        Packet.joinGame jgSample0 ::
          (if Minecraft_1_8 ≤ 578 then [Packet.resetTitle 578] else [])) ∧
    (∀ rsp, Packet.respawn rsp ∉
      (handleBackendJoinGame true false 578 578 jgSample0 [] []
        (Conn.fresh (fun _ => true) true)
        (Conn.fresh (fun _ => true) true)).player.buffered) ∧
    (∀ spawned, spawned = true →
      (handleBackendJoinGame true spawned 578 578 jgSample0 [] []
        (Conn.fresh (fun _ => true) true)
        (Conn.fresh (fun _ => true) true)).onFirstJoin = false) :=
  first_joinGame_buffers_joinGame_only 578 578 jgSample0 [] []
    (fun _ => true) (fun _ => true) true true rfl

/-- Claim C9: across any nonempty sequence of `close`/`closeWith`/
`closeKnown` calls on a fresh connection the handler's `disconnected()`
callback fires exactly once; every call after the first leaves the
connection state unchanged and returns the already-closed error; and
`closeWith` stores `knownDisconnect = true` before sending the packet and
closing (the full event order of a `closeWith` on an open connection is
knownDisconnect-store, packet send, knownDisconnect-store (inside
closeKnown), close mark, `disconnected()`). -/
theorem close_single_shot (writeOk : Bool) (ops : List CloseOp)
    (op : CloseOp) (p : Packet) (hne : ops ≠ []) :
    (runCloseOps (initCloseState writeOk) ops).disconnectedCount = 1 ∧
    runCloseOps (initCloseState writeOk) (ops ++ [op]) =
      runCloseOps (initCloseState writeOk) ops ∧
    (closeStep op (runCloseOps (initCloseState writeOk) ops)).2 =
      .errClosedConn ∧
    (closeStep (.closeWith p) (initCloseState true)).1.events =
      [.setKnownDisconnect, .sentPacket p, .setKnownDisconnect, .closedMark,
        .disconnectedCall] := by
  obtain ⟨hcl, hcount⟩ := runCloseOps_init writeOk ops hne
  refine ⟨hcount, ?_, ?_, rfl⟩
  · rw [runCloseOps_append]
    show runCloseOps (closeStep op (runCloseOps (initCloseState writeOk)
      ops)).1 [] = _
    rw [closeStep_closed hcl op]
    rfl
  · rw [closeStep_closed hcl op]

/-- Claim C9 witness: a `close` followed by another `close` on a fresh
connection fires `disconnected()` once, and the second call is a no-op
returning the already-closed error. -/
theorem close_single_shot_witness :
    (runCloseOps (initCloseState true) [CloseOp.close]).disconnectedCount =
      1 ∧
    runCloseOps (initCloseState true) ([CloseOp.close] ++ [CloseOp.close]) =
      runCloseOps (initCloseState true) [CloseOp.close] ∧
    (closeStep CloseOp.close
        (runCloseOps (initCloseState true) [CloseOp.close])).2 =
      .errClosedConn ∧
    (closeStep (.closeWith (Packet.keepAlive 1)) (initCloseState true)).1.events =
      [.setKnownDisconnect, .sentPacket (Packet.keepAlive 1),
        .setKnownDisconnect, .closedMark, .disconnectedCall] :=
  close_single_shot true [CloseOp.close] CloseOp.close (Packet.keepAlive 1)
    (by decide)

end GateProxy
